import Mathlib

/-!
Verification of the screenshot-to-document reconstruction pipeline
(`src/api/screenshot_processor.py` and `src/api/main.py`).

The Python code is shallowly embedded: tokens and lines are structures,
the stateful line-assembly loop becomes a fold over the token list, and
the per-paragraph styling logic becomes a pure function producing a
record of the formatting directives the code sets on each paragraph.
Machine floats appearing in the source (`height * 0.8`, `pixels * 0.3`)
are embedded as exact integer divisions; for the nonnegative integer
inputs the OCR engine produces (far below 2^50), the double-precision
expressions `int(h * 0.8)` and `int(g * 0.3)` agree with `⌊4h/5⌋` and
`⌊3g/10⌋`, since the relative rounding error of the stored constants
(≈2^-54) can never move the product across an integer boundary.
-/

namespace Screenshot

/-- One OCR word token, as read from the `pytesseract` data dictionary:
`text`, `left`, `top`, `height`, `conf`, `block_num`. -/
structure Token where
  text : String
  left : Int
  top : Int
  height : Nat
  conf : Int
  block_num : Int
  deriving Repr, DecidableEq

/-- A line accumulator / sealed line, mirroring the dict built by
`_create_empty_line` / `_create_line_from_data`. -/
structure Line where
  text : String
  left : Int
  top : Int
  height : Nat
  confidence : Int
  block_num : Int
  deriving Repr, DecidableEq

/-- `ScreenshotProcessor.CONFIDENCE_THRESHOLD = 30`. -/
def CONFIDENCE_THRESHOLD : Int := 30

/-- Python `str.strip()` for ASCII text: drop leading and trailing
whitespace.  Implemented structurally on the character list so that the
kernel can evaluate it on concrete strings. -/
def pyStrip (s : String) : String :=
  String.mk (((s.data.dropWhile Char.isWhitespace).reverse.dropWhile
    Char.isWhitespace).reverse)

/-- `_create_empty_line`: all fields zeroed, empty text. -/
def create_empty_line : Line :=
  { text := "", left := 0, top := 0, height := 0, confidence := 0, block_num := 0 }

/-- `_is_new_line`: the accumulator has text, and the token's block differs
or its top is more than 10 away from the accumulator's recorded top. -/
def is_new_line (current : Line) (t : Token) : Bool :=
  decide (current.text ≠ "") &&
    (decide (t.block_num ≠ current.block_num) || decide (10 < |t.top - current.top|))

/-- `_create_line_from_data`: a fresh line seeded entirely from the token
(`text` is the already-stripped token text). -/
def create_line_from_data (t : Token) (text : String) : Line :=
  { text := text, left := t.left, top := t.top, height := t.height,
    confidence := t.conf, block_num := t.block_num }

/-- `_append_to_current_line`: append with a separating space when the
accumulator already has text; otherwise seed `text/left/top/height/block_num`
from the token.  Note the seeding branch of the source does NOT copy the
token's confidence: the accumulator keeps the confidence it already had. -/
def append_to_current_line (current : Line) (t : Token) (text : String) : Line :=
  if current.text ≠ "" then
    { current with text := current.text ++ " " ++ text }
  else
    { text := text, left := t.left, top := t.top, height := t.height,
      confidence := current.confidence, block_num := t.block_num }

/-- One iteration of the token loop in `extract_text_with_layout`:
skip low-confidence and whitespace-only tokens, otherwise either seal the
accumulator and start a new line, or append to the accumulator. -/
def processToken (acc : List Line × Line) (t : Token) : List Line × Line :=
  if CONFIDENCE_THRESHOLD < t.conf then
    let text := pyStrip t.text
    if text ≠ "" then
      if is_new_line acc.2 t then
        (acc.1 ++ [acc.2], create_line_from_data t text)
      else
        (acc.1, append_to_current_line acc.2 t text)
    else acc
  else acc

/-- The line-assembly phase of `extract_text_with_layout`: fold the token
loop from an empty accumulator, then seal the accumulator if it holds text. -/
def assembleLines (ts : List Token) : List Line :=
  let r := ts.foldl processToken ([], create_empty_line)
  if r.2.text ≠ "" then r.1 ++ [r.2] else r.1

/-- The token filter applied inside the loop: `int(conf) > 30` and a
non-empty stripped text. -/
def keepToken (t : Token) : Bool :=
  decide (CONFIDENCE_THRESHOLD < t.conf) && decide (pyStrip t.text ≠ "")

/-- The stripped texts of the tokens that survive the filter, in order. -/
def survivors (ts : List Token) : List String :=
  (ts.filter keepToken).map (fun t => pyStrip t.text)

/-- `estimate_font_size`: `max(8, int(height * 0.8))`.  `int` truncates, and
for the natural heights in scope `int(height * 0.8) = 4 * height / 5`
(floor division), as explained in the file header. -/
def estimate_font_size (height : Nat) : Nat := max 8 (4 * height / 5)

/-- The paragraph style labels returned by `determine_style`. -/
inductive Style where
  | header
  | heading1
  | heading2
  | heading3
  | body
  deriving Repr, DecidableEq

/-- Helper for `pySplit`: scan the characters, accumulating the current
(reversed) word, emitting a word at each whitespace boundary. -/
def splitWordsAux : List Char → List Char → List String
  | [], acc => if acc = [] then [] else [String.mk acc.reverse]
  | c :: cs, acc =>
    if c.isWhitespace then
      if acc = [] then splitWordsAux cs []
      else String.mk acc.reverse :: splitWordsAux cs []
    else splitWordsAux cs (c :: acc)

/-- Python `str.split()` (no separator): maximal runs of non-whitespace. -/
def pySplit (s : String) : List String := splitWordsAux s.data []

/-- `len(text.split())`. -/
def wordCount (s : String) : Nat := (pySplit s).length

/-- Python `str.isupper()` restricted to ASCII text: at least one letter and
no lowercase letter. -/
def pyIsUpper (s : String) : Bool :=
  s.data.any Char.isAlpha && s.data.all (fun c => !c.isLower)

/-- `self.font_size_thresholds['heading1']`. -/
def heading1_threshold : Nat := 22

/-- `self.font_size_thresholds['heading2']`. -/
def heading2_threshold : Nat := 18

/-- `self.font_size_thresholds['heading3']`. -/
def heading3_threshold : Nat := 14

/-- `determine_style`, as a function of the two block fields it reads:
the line's text and its estimated font size. -/
def determine_style (text : String) (font_size : Nat) : Style :=
  let is_all_caps := pyIsUpper text && decide (wordCount text ≤ 15)
  let is_short_standalone := decide (wordCount text ≤ 6) && decide (10 ≤ font_size)
  if is_all_caps && decide (font_size < 14) then Style.header
  else if decide (heading1_threshold ≤ font_size) then Style.heading1
  else if decide (heading2_threshold ≤ font_size) || is_short_standalone then Style.heading2
  else if decide (heading3_threshold ≤ font_size) then Style.heading3
  else Style.body

/-- A sealed line together with the two derived fields the second loop of
`extract_text_with_layout` stores into each block dict. -/
structure StyledLine where
  line : Line
  estimated_font_size : Nat
  style : Style
  deriving Repr, DecidableEq

/-- `extract_text_with_layout` after OCR: assemble lines, then annotate each
with its estimated font size and style. -/
def extract_text_with_layout (ts : List Token) : List StyledLine :=
  (assembleLines ts).map (fun l =>
    let fs := estimate_font_size l.height
    { line := l, estimated_font_size := fs, style := determine_style l.text fs })

/-! ### Paragraph styling (`_add_paragraph_to_document`) -/

/-- `spacing_pixels = block['top'] - last_top if last_top > 0 else 0`. -/
def spacing_pixels (top last_top : Int) : Int :=
  if 0 < last_top then top - last_top else 0

/-- `spacing_before = max(0, int(spacing_pixels * 0.3))`.  For the integer
gaps in scope `int(g * 0.3) = ⌊3g/10⌋` when `g ≥ 0`, and the `max` with `0`
annihilates every nonpositive gap, so the embedding only divides the
nonnegative case. -/
def spacing_before (top last_top : Int) : Nat :=
  let g := spacing_pixels top last_top
  if g ≤ 0 then 0 else 3 * g.toNat / 10

/-- `is_new_paragraph = spacing_pixels > 20 or block['block_num'] != last_block_num`. -/
def is_new_paragraph (top block_num last_top last_block_num : Int) : Bool :=
  decide (20 < spacing_pixels top last_top) || decide (block_num ≠ last_block_num)

/-- The spec's `is_continuation`: the negation of the code's
`is_new_paragraph` condition. -/
def is_continuation (top block_num last_top last_block_num : Int) : Bool :=
  !is_new_paragraph top block_num last_top last_block_num

/-- The formatting directives `_add_paragraph_to_document` sets on the
paragraph it adds: run font size in points, bold flag, RGB color,
center alignment, `space_before`/`space_after` in points (`none` when the
code leaves the attribute untouched), the line-spacing multiplier, and the
native heading level used for `add_heading`. -/
structure ParaFormat where
  text : String
  fontSize : Nat
  bold : Bool
  color : Nat × Nat × Nat
  centered : Bool
  spaceBefore : Option Nat
  spaceAfter : Option Nat
  lineSpacing : Option ℚ
  headingLevel : Option Nat
  deriving Repr, DecidableEq

/-- `_add_paragraph_to_document`, as a pure function from the block, its
index, and the running state (`last_top`, `last_block_num`) to the
directives placed on the added paragraph. -/
def add_paragraph_to_document (b : StyledLine) (index : Nat)
    (last_top last_block_num : Int) : ParaFormat :=
  let sb := spacing_before b.line.top last_top
  let newPar := is_new_paragraph b.line.top b.line.block_num last_top last_block_num
  match b.style with
  | Style.header =>
      { text := b.line.text, fontSize := 9, bold := false,
        color := (150, 150, 150), centered := true,
        spaceBefore := none, spaceAfter := some 6,
        lineSpacing := none, headingLevel := none }
  | Style.heading1 =>
      { text := b.line.text, fontSize := b.estimated_font_size, bold := true,
        color := (0, 0, 0), centered := false,
        spaceBefore := some sb, spaceAfter := some 8,
        lineSpacing := none, headingLevel := some 1 }
  | Style.heading2 =>
      { text := b.line.text, fontSize := b.estimated_font_size, bold := true,
        color := (0, 0, 0), centered := false,
        spaceBefore := some (max 12 sb), spaceAfter := some 6,
        lineSpacing := none, headingLevel := some 2 }
  | Style.heading3 =>
      { text := b.line.text, fontSize := b.estimated_font_size, bold := true,
        color := (0, 0, 0), centered := false,
        spaceBefore := some (max 10 sb), spaceAfter := some 4,
        lineSpacing := none, headingLevel := some 3 }
  | Style.body =>
      { text := b.line.text, fontSize := 11, bold := false,
        color := (0, 0, 0), centered := false,
        spaceBefore := some (if newPar && decide (0 < index) then max 8 sb else 0),
        spaceAfter := some 0,
        lineSpacing := some 1.15, headingLevel := none }

/-- `create_word_document`: fold over the blocks, threading the running
state `last_top` (previous line's `top + height`, initially `0`) and
`last_block_num` (initially `-1`). -/
def create_word_document (blocks : List StyledLine) : List ParaFormat :=
  (blocks.foldl
    (fun (acc : List ParaFormat × Int × Int × Nat) b =>
      (acc.1 ++ [add_paragraph_to_document b acc.2.2.2 acc.2.1 acc.2.2.1],
       b.line.top + (b.line.height : Int), b.line.block_num, acc.2.2.2 + 1))
    ([], 0, -1, 0)).1

/-! ### The HTTP endpoint (`src/api/main.py`) -/

/-- One uploaded file, as the endpoint sees it: its client-supplied name
and content type (the empty string standing for a missing content type,
which fails the `startswith("image/")` test exactly as Python's falsiness
test does). -/
structure UploadFile where
  filename : String
  content_type : String
  deriving Repr, DecidableEq

/-- Python `str.lower()` for ASCII text. -/
def pyLower (s : String) : String := String.mk (s.data.map Char.toLower)

/-- Python `str.startswith`, as a prefix test on the character lists. -/
def pyStartsWith (s pre : String) : Bool := pre.data.isPrefixOf s.data

/-- `pathlib.Path(name).suffix` for a plain file name (no directory
separators, not `.` or `..`): the segment from the last dot, provided that
dot is neither the first nor the last character; otherwise the empty
string. -/
def pySuffix (name : String) : String :=
  let cs := name.data
  if cs.contains '.' then
    let i := cs.length - 1 - cs.reverse.indexOf '.'
    if 0 < i ∧ i < cs.length - 1 then String.mk (cs.drop i) else ""
  else ""

/-- The extension allow-list inlined in `process_screenshots`. -/
def SUPPORTED_EXTENSIONS : List String :=
  [".jpg", ".jpeg", ".png", ".bmp", ".tiff", ".webp"]

/-- The per-file validation of the upload loop: a non-image (or missing)
content type, a missing filename, or an unsupported extension each raise
an `HTTPException(400)`; `none` means the file is accepted. -/
def validateFile (f : UploadFile) : Option Nat :=
  if !pyStartsWith f.content_type "image/" then some 400
  else if f.filename = "" then some 400
  else if !SUPPORTED_EXTENSIONS.contains (pyLower (pySuffix f.filename)) then some 400
  else none

/-- The attribute names `class ScreenshotProcessor` defines (its methods);
attribute lookup in Python succeeds exactly on these names. -/
def screenshotProcessorMethods : List String :=
  ["__init__", "process_image", "extract_text_with_layout",
   "_create_empty_line", "_is_new_line", "_create_line_from_data",
   "_append_to_current_line", "estimate_font_size", "determine_style",
   "create_word_document", "_configure_document_style",
   "_add_paragraph_to_document"]

/-- Outcome of a request to `/process-screenshots`: the HTTP status (200
on success) and whether an output document was written. -/
structure EndpointResult where
  status : Nat
  documentProduced : Bool
  deriving Repr, DecidableEq

/-- `process_screenshots`: reject an empty upload list with 400; validate
the files in order, raising the first validation error; then call
`processor.process_images(...)`.  The call is modelled by Python attribute
lookup: if `ScreenshotProcessor` defined a method of that name the
processing would run and produce the document, otherwise the lookup raises
`AttributeError`, which the `except Exception` handler turns into an
`HTTPException(500)` before any output document exists. -/
def process_screenshots (files : List UploadFile) : EndpointResult :=
  if files = [] then { status := 400, documentProduced := false }
  else
    match files.findSome? validateFile with
    | some code => { status := code, documentProduced := false }
    | none =>
        if screenshotProcessorMethods.contains "process_images" then
          { status := 200, documentProduced := true }
        else
          { status := 500, documentProduced := false }

/-! ### Spec-side definitions (for refinement comparisons) -/

/-- The spec's Step B as written: an explicit ordered list of
(predicate, role) pairs — HEADER, then HEADING1, then HEADING2 (with the
short-standalone disjunct), then HEADING3. -/
def rolePredicates (text : String) (size : Nat) : List (Bool × Style) :=
  [(pyIsUpper text && decide (wordCount text ≤ 15) && decide (size < 14),
     Style.header),
   (decide (22 ≤ size), Style.heading1),
   (decide (18 ≤ size) || (decide (wordCount text ≤ 6) && decide (10 ≤ size)),
     Style.heading2),
   (decide (14 ≤ size), Style.heading3)]

/-- First-match-wins evaluation of the spec's ordered predicate list, with
BODY as the default. -/
def firstMatchRole (text : String) (size : Nat) : Style :=
  match (rolePredicates text size).find? Prod.fst with
  | some pr => pr.2
  | none => Style.body

/-- The font-size estimate exactly as the spec's Step A words it:
`max(8, round(height * 0.8))`, round-to-nearest over the rationals. -/
def specEstimateRound (height : Nat) : Nat :=
  max 8 (round ((0.8 : ℚ) * height)).toNat

/-! Ghost variant of the assembly fold for the conservation proof: it runs
the identical loop but additionally records, for every line, the list of
surviving token texts that contributed to it. -/

/-- Join a word list with single spaces; the shape of every accumulator
text built by `append_to_current_line`. -/
def joinWords : List String → String
  | [] => ""
  | w :: ws => ws.foldl (fun a b => a ++ " " ++ b) w

/-- Ghost step: identical branching to `processToken`, also tracking the
word lists of sealed lines and of the current accumulator. -/
def processTokenG (acc : List (List String) × List String × Line) (t : Token) :
    List (List String) × List String × Line :=
  if CONFIDENCE_THRESHOLD < t.conf then
    let text := pyStrip t.text
    if text ≠ "" then
      if is_new_line acc.2.2 t then
        (acc.1 ++ [acc.2.1], [text], create_line_from_data t text)
      else
        (acc.1, acc.2.1 ++ [text], append_to_current_line acc.2.2 t text)
    else acc
  else acc

/-- Per-line word groups of the assembly: the surviving token texts,
grouped exactly as `assembleLines` groups them into lines. -/
def lineWordGroups (ts : List Token) : List (List String) :=
  let r := ts.foldl processTokenG ([], [], create_empty_line)
  if r.2.1 ≠ [] then r.1 ++ [r.2.1] else r.1

end Screenshot

namespace Screenshot

/-! Helper lemmas. -/

lemma foldl_space_append_ne_empty (ws : List String) (a : String) (ha : a ≠ "") :
    ws.foldl (fun x y => x ++ " " ++ y) a ≠ "" := by
  induction ws generalizing a with
  | nil => exact ha
  | cons w ws ih =>
      apply ih
      intro hcontra
      have hlen := congrArg String.length hcontra
      rw [String.length_append, String.length_append] at hlen
      have h1 : (" " : String).length = 1 := rfl
      have h0 : ("" : String).length = 0 := rfl
      omega

lemma joinWords_ne_empty (ws : List String) (hne : ws ≠ [])
    (hws : ∀ u ∈ ws, u ≠ "") : joinWords ws ≠ "" := by
  cases ws with
  | nil => exact absurd rfl hne
  | cons w ws =>
      exact foldl_space_append_ne_empty ws w (hws w (by simp))

lemma joinWords_eq_empty (ws : List String) (hws : ∀ u ∈ ws, u ≠ "")
    (h : joinWords ws = "") : ws = [] := by
  by_contra hne
  exact joinWords_ne_empty ws hne hws h

lemma joinWords_append (ws : List String) (w : String) (hne : ws ≠ []) :
    joinWords (ws ++ [w]) = joinWords ws ++ " " ++ w := by
  cases ws with
  | nil => exact absurd rfl hne
  | cons x xs =>
      show (xs ++ [w]).foldl (fun a b => a ++ " " ++ b) x = _
      rw [List.foldl_append]
      rfl

lemma processToken_skip (acc : List Line × Line) (t : Token)
    (h : keepToken t = false) : processToken acc t = acc := by
  simp only [keepToken, Bool.and_eq_false_iff, decide_eq_false_iff_not, not_lt,
    not_not] at h
  simp only [processToken]
  rcases h with h | h
  · rw [if_neg (by omega)]
  · split
    · rw [if_neg (by simp [h])]
    · rfl

lemma processTokenG_skip (acc : List (List String) × List String × Line) (t : Token)
    (h : keepToken t = false) : processTokenG acc t = acc := by
  simp only [keepToken, Bool.and_eq_false_iff, decide_eq_false_iff_not, not_lt,
    not_not] at h
  simp only [processTokenG]
  rcases h with h | h
  · rw [if_neg (by omega)]
  · split
    · rw [if_neg (by simp [h])]
    · rfl

lemma survivors_cons (t : Token) (ts : List Token) :
    survivors (t :: ts) =
      if keepToken t then pyStrip t.text :: survivors ts else survivors ts := by
  simp only [survivors, List.filter_cons]
  split <;> simp

/-- The assembly fold and its ghost stay in lockstep: the ghost's line
component equals the real accumulator; sealed line texts are the joins of
the recorded word groups; the accumulator text is the join of the current
word group; all recorded words are non-empty; the words recorded so far are
exactly the carried-in words followed by the surviving texts of the
consumed tokens; and every sealed word group is non-empty. -/
lemma fold_corr (ts : List Token) (blocks : List Line) (cur : Line)
    (groups : List (List String)) (ws : List String)
    (hcur : cur.text = joinWords ws)
    (hws : ∀ u ∈ ws, u ≠ "")
    (hmap : blocks.map Line.text = groups.map joinWords)
    (hgrp : ∀ g ∈ groups, g ≠ []) :
    ((ts.foldl processTokenG (groups, ws, cur)).2.2
        = (ts.foldl processToken (blocks, cur)).2) ∧
    ((ts.foldl processToken (blocks, cur)).1.map Line.text
        = (ts.foldl processTokenG (groups, ws, cur)).1.map joinWords) ∧
    ((ts.foldl processToken (blocks, cur)).2.text
        = joinWords (ts.foldl processTokenG (groups, ws, cur)).2.1) ∧
    (∀ u ∈ (ts.foldl processTokenG (groups, ws, cur)).2.1, u ≠ "") ∧
    ((ts.foldl processTokenG (groups, ws, cur)).1.flatten
        ++ (ts.foldl processTokenG (groups, ws, cur)).2.1
      = groups.flatten ++ ws ++ survivors ts) ∧
    (∀ g ∈ (ts.foldl processTokenG (groups, ws, cur)).1, g ≠ []) := by
  induction ts generalizing blocks cur groups ws with
  | nil =>
      refine ⟨rfl, hmap, hcur, hws, ?_, hgrp⟩
      simp [survivors]
  | cons t ts ih =>
      by_cases hk : keepToken t = true
      · have hconf : CONFIDENCE_THRESHOLD < t.conf := by
          simp only [keepToken, Bool.and_eq_true, decide_eq_true_eq] at hk
          exact hk.1
        have htext : pyStrip t.text ≠ "" := by
          simp only [keepToken, Bool.and_eq_true, decide_eq_true_eq] at hk
          exact hk.2
        have hsurv : survivors (t :: ts) = pyStrip t.text :: survivors ts := by
          rw [survivors_cons, if_pos hk]
        simp only [List.foldl_cons, processToken, processTokenG,
          if_pos hconf, if_pos htext]
        by_cases hnew : is_new_line cur t = true
        · rw [if_pos hnew, if_pos hnew]
          have hct : cur.text ≠ "" := by
            simp only [is_new_line, Bool.and_eq_true, decide_eq_true_eq] at hnew
            exact hnew.1
          have hwsne : ws ≠ [] := by
            intro hcontra
            rw [hcontra] at hcur
            exact hct hcur
          obtain ⟨g1, g2, g3, g4, g5, g6⟩ :=
            ih (blocks ++ [cur]) (create_line_from_data t (pyStrip t.text))
              (groups ++ [ws]) [pyStrip t.text] rfl
              (by intro u hu; simp at hu; rw [hu]; exact htext)
              (by simp [hmap, hcur])
              (by intro g hg
                  rcases List.mem_append.mp hg with h | h
                  · exact hgrp g h
                  · simp at h; rw [h]; exact hwsne)
          refine ⟨g1, g2, g3, g4, ?_, g6⟩
          rw [g5, hsurv]
          simp [List.append_assoc]
        · rw [if_neg hnew, if_neg hnew]
          by_cases hct : cur.text ≠ ""
          · have hwsne : ws ≠ [] := by
              intro hcontra
              rw [hcontra] at hcur
              exact hct hcur
            have happ : append_to_current_line cur t (pyStrip t.text)
                = { cur with text := cur.text ++ " " ++ pyStrip t.text } := by
              simp only [append_to_current_line, if_pos hct]
            obtain ⟨g1, g2, g3, g4, g5, g6⟩ :=
              ih blocks (append_to_current_line cur t (pyStrip t.text))
                groups (ws ++ [pyStrip t.text])
                (by rw [happ, joinWords_append ws _ hwsne, ← hcur])
                (by intro u hu
                    rcases List.mem_append.mp hu with h | h
                    · exact hws u h
                    · simp at h; rw [h]; exact htext)
                hmap hgrp
            refine ⟨g1, g2, g3, g4, ?_, g6⟩
            rw [g5, hsurv]
            simp [List.append_assoc]
          · push_neg at hct
            have hwsnil : ws = [] := by
              apply joinWords_eq_empty ws hws
              rw [← hcur, hct]
            have happ : append_to_current_line cur t (pyStrip t.text)
                = { text := pyStrip t.text, left := t.left, top := t.top,
                    height := t.height, confidence := cur.confidence,
                    block_num := t.block_num } := by
              simp only [append_to_current_line, hct]
              rw [if_neg (by simp)]
            obtain ⟨g1, g2, g3, g4, g5, g6⟩ :=
              ih blocks (append_to_current_line cur t (pyStrip t.text))
                groups (ws ++ [pyStrip t.text])
                (by rw [happ, hwsnil]; rfl)
                (by intro u hu
                    rcases List.mem_append.mp hu with h | h
                    · exact hws u h
                    · simp at h; rw [h]; exact htext)
                hmap hgrp
            refine ⟨g1, g2, g3, g4, ?_, g6⟩
            rw [g5, hsurv]
            simp [List.append_assoc]
      · have hk' : keepToken t = false := by simpa using hk
        have hsurv : survivors (t :: ts) = survivors ts := by
          rw [survivors_cons, if_neg (by simp [hk'])]
        simp only [List.foldl_cons,
          processToken_skip (blocks, cur) t hk',
          processTokenG_skip (groups, ws, cur) t hk', hsurv]
        exact ih blocks cur groups ws hcur hws hmap hgrp

/-- Folding `processToken` ignores exactly the tokens the filter drops. -/
lemma foldl_processToken_filter (ts : List Token) (acc : List Line × Line) :
    (ts.filter keepToken).foldl processToken acc = ts.foldl processToken acc := by
  induction ts generalizing acc with
  | nil => rfl
  | cons t ts ih =>
      by_cases h : keepToken t = true
      · rw [List.filter_cons_of_pos h, List.foldl_cons, List.foldl_cons, ih]
      · have h' : keepToken t = false := by simpa using h
        rw [List.filter_cons_of_neg (by simp [h']), List.foldl_cons,
          processToken_skip acc t h', ih]

/-- Input of the worked scenario from the spec: four same-block tokens,
an all-caps word at top 0 and three body words at top 40. -/
def c1Tokens : List Token :=
  [{ text := "INTRODUCTION", left := 0, top := 0, height := 18, conf := 90, block_num := 1 },
   { text := "This", left := 0, top := 40, height := 15, conf := 95, block_num := 1 },
   { text := "is", left := 30, top := 40, height := 15, conf := 95, block_num := 1 },
   { text := "body.", left := 50, top := 40, height := 15, conf := 95, block_num := 1 }]

/-! Claim theorems. -/

/-- Claim C1 (counterexample): on the scenario tokens the pipeline
classifies BOTH lines as HEADING2 — `"INTRODUCTION"` (one word, size 14 ≥ 10)
and `"This is body."` (three words, size 12 ≥ 10) both satisfy the
short-standalone disjunct of the HEADING2 test, which is checked before
HEADING3 and BODY — so the claimed roles HEADING3 and BODY are wrong. -/
theorem C1_counterexample :
    (extract_text_with_layout c1Tokens).map StyledLine.style
        = [Style.heading2, Style.heading2] ∧
    (extract_text_with_layout c1Tokens).map StyledLine.style
        ≠ [Style.heading3, Style.body] := by
  exact ⟨by decide, by decide⟩

/-- Claim C1 (amended): the scenario tokens produce exactly two lines,
`"INTRODUCTION"` (top 0) and `"This is body."` (top 40), with estimated
font sizes 14 and 12, and both lines are classified HEADING2. -/
theorem C1_scenario :
    (extract_text_with_layout c1Tokens).map (fun s => s.line.text)
        = ["INTRODUCTION", "This is body."] ∧
    (extract_text_with_layout c1Tokens).map (fun s => s.line.top) = [0, 40] ∧
    (extract_text_with_layout c1Tokens).map StyledLine.estimated_font_size
        = [14, 12] ∧
    (extract_text_with_layout c1Tokens).map StyledLine.style
        = [Style.heading2, Style.heading2] := by
  refine ⟨by decide, by decide, by decide, by decide⟩

/-- Claim C2: any non-empty upload whose files all pass validation is
answered with HTTP 500 and produces no output document, because the
endpoint calls `processor.process_images`, a method `ScreenshotProcessor`
does not define, so the call raises `AttributeError` which the generic
exception handler converts to a 500 response. -/
theorem C2_missing_method (files : List UploadFile) (hne : files ≠ [])
    (hval : ∀ f ∈ files, validateFile f = none) :
    process_screenshots files = { status := 500, documentProduced := false } := by
  unfold process_screenshots
  rw [if_neg hne]
  have hfind : ∀ l : List UploadFile, (∀ f ∈ l, validateFile f = none) →
      l.findSome? validateFile = none := by
    intro l
    induction l with
    | nil => intro _; rfl
    | cons f fs ih =>
        intro hv
        rw [List.findSome?_cons, hv f (by simp)]
        exact ih (fun g hg => hv g (by simp [hg]))
  rw [hfind files hval]
  decide

theorem C2_missing_method_witness :
    process_screenshots [{ filename := "shot.png", content_type := "image/png" }]
      = { status := 500, documentProduced := false } :=
  C2_missing_method [{ filename := "shot.png", content_type := "image/png" }]
    (by decide) (by decide)

/-- Claim C3: `determine_style` is a total function of the line's text and
estimated font size, and it equals first-match-wins evaluation of the
spec's ordered predicate list — HEADER (all-caps, ≤ 15 words, size < 14),
then HEADING1 (size ≥ 22), then HEADING2 (size ≥ 18 or (≤ 6 words and
size ≥ 10)), then HEADING3 (size ≥ 14), then BODY. -/
theorem C3_role_precedence :
    ∀ (text : String) (size : Nat),
      determine_style text size = firstMatchRole text size := by
  intro text size
  unfold determine_style firstMatchRole rolePredicates
  simp only [heading1_threshold, heading2_threshold, heading3_threshold]
  by_cases h0 : (pyIsUpper text && decide (wordCount text ≤ 15)) = true <;>
    by_cases h1 : (pyIsUpper text && decide (wordCount text ≤ 15) && decide (size < 14)) = true <;>
      by_cases h2 : decide (22 ≤ size) = true <;>
        by_cases h3 : (decide (18 ≤ size) || decide (wordCount text ≤ 6) && decide (10 ≤ size)) = true <;>
          by_cases h4 : decide (14 ≤ size) = true <;>
            simp_all
  all_goals split_ifs <;> (try simp_all) <;> (try omega)

/-- Claim C4: a token starts a new line iff the accumulator is non-empty
and (its block differs or its top is more than 10 from the accumulator's
top); the boundary is strict — a top difference of exactly 10 does not
split, 11 does — and two same-block tokens at tops 5 and 14 merge into one
line while tops 5 and 16 split into two. -/
theorem C4_new_line_boundary :
    (∀ (cur : Line) (t : Token),
        is_new_line cur t = true ↔
          cur.text ≠ "" ∧ (t.block_num ≠ cur.block_num ∨ 10 < |t.top - cur.top|)) ∧
    (assembleLines
        [{ text := "alpha", left := 0, top := 5, height := 12, conf := 90, block_num := 1 },
         { text := "beta", left := 40, top := 14, height := 12, conf := 90, block_num := 1 }]).map
        Line.text = ["alpha beta"] ∧
    (assembleLines
        [{ text := "alpha", left := 0, top := 5, height := 12, conf := 90, block_num := 1 },
         { text := "beta", left := 40, top := 16, height := 12, conf := 90, block_num := 1 }]).map
        Line.text = ["alpha", "beta"] ∧
    is_new_line { text := "alpha", left := 0, top := 5, height := 12, confidence := 90, block_num := 1 }
        { text := "beta", left := 40, top := 15, height := 12, conf := 90, block_num := 1 } = false ∧
    is_new_line { text := "alpha", left := 0, top := 5, height := 12, confidence := 90, block_num := 1 }
        { text := "beta", left := 40, top := 16, height := 12, conf := 90, block_num := 1 } = true := by
  refine ⟨?_, by decide, by decide, by decide, by decide⟩
  intro cur t
  simp [is_new_line]

/-- Claim C5: the surviving token texts are conserved — grouped into the
output lines (each line's text is the space-join of its group, no group is
empty, and concatenating the groups in order gives exactly the surviving
stripped texts in their original order) — while filtered tokens are
invisible: assembling the tokens equals assembling only the survivors, and
when nothing survives the output is empty. -/
theorem C5_token_conservation :
    ∀ ts : List Token,
      (lineWordGroups ts).flatten = survivors ts ∧
      (assembleLines ts).map Line.text = (lineWordGroups ts).map joinWords ∧
      (∀ g ∈ lineWordGroups ts, g ≠ []) ∧
      assembleLines ts = assembleLines (ts.filter keepToken) ∧
      (ts.filter keepToken = [] → assembleLines ts = []) := by
  intro ts
  obtain ⟨g1, g2, g3, g4, g5, g6⟩ :=
    fold_corr ts [] create_empty_line [] [] rfl (by simp) rfl (by simp)
  have hiff :
      ((ts.foldl processToken ([], create_empty_line)).2.text ≠ "")
        ↔ (ts.foldl processTokenG ([], [], create_empty_line)).2.1 ≠ [] := by
    constructor
    · intro h hcontra
      rw [g3, hcontra] at h
      exact h rfl
    · intro h
      rw [g3]
      exact joinWords_ne_empty _ h g4
  have hfilter : assembleLines ts = assembleLines (ts.filter keepToken) := by
    unfold assembleLines
    rw [foldl_processToken_filter]
  refine ⟨?_, ?_, ?_, hfilter, ?_⟩
  · unfold lineWordGroups
    by_cases h : (ts.foldl processTokenG ([], [], create_empty_line)).2.1 ≠ []
    · rw [if_pos h, List.flatten_append]
      simpa using g5
    · rw [if_neg h]
      push_neg at h
      have := g5
      rw [h] at this
      simpa using this
  · unfold assembleLines lineWordGroups
    by_cases h : (ts.foldl processTokenG ([], [], create_empty_line)).2.1 ≠ []
    · rw [if_pos h, if_pos (hiff.mpr h), List.map_append, List.map_append, g2]
      simp [g3]
    · rw [if_neg h, if_neg (fun hc => h (hiff.mp hc))]
      exact g2
  · unfold lineWordGroups
    by_cases h : (ts.foldl processTokenG ([], [], create_empty_line)).2.1 ≠ []
    · rw [if_pos h]
      intro g hg
      rcases List.mem_append.mp hg with hmem | hmem
      · exact g6 g hmem
      · simp at hmem; rw [hmem]; exact h
    · rw [if_neg h]
      exact g6
  · intro hnil
    rw [hfilter, hnil]
    rfl

/-- Claim C6 (counterexample): at height 17 the code computes
`max(8, int(17 * 0.8)) = 13` (truncation), while the claimed formula
`max(8, round(17 * 0.8))` gives 14, so the claim fails at height 17. -/
theorem C6_counterexample :
    estimate_font_size 17 = 13 ∧ specEstimateRound 17 = 14 ∧
    estimate_font_size 17 ≠ specEstimateRound 17 := by
  have h : specEstimateRound 17 = 14 := by
    unfold specEstimateRound
    norm_num [round_eq]
    decide
  exact ⟨rfl, h, by rw [h]; decide⟩

/-- Claim C6 (amended): for every line the estimated font size equals
`max(8, ⌊height * 0.8⌋)` — the scaled height truncated (floored), not
rounded to the nearest integer. -/
theorem C6_truncated_estimate :
    ∀ h : Nat, estimate_font_size h = max 8 (Nat.floor ((0.8 : ℚ) * h)) := by
  intro h
  unfold estimate_font_size
  congr 1
  rw [show ((0.8 : ℚ) * h) = ((4 * h : ℕ) : ℚ) / ((5 : ℕ) : ℚ) by push_cast; ring]
  rw [Nat.floor_div_nat, Nat.floor_natCast]

/-- Claim C7: a BODY paragraph always receives the fixed run font size 11
regardless of the estimate, and whenever it continues the previous
paragraph the fixed 1.15 line-spacing multiplier applies. -/
theorem C7_body_fixed_size (b : StyledLine) (index : Nat)
    (last_top last_block_num : Int) (hb : b.style = Style.body) :
    (add_paragraph_to_document b index last_top last_block_num).fontSize = 11 ∧
    (is_continuation b.line.top b.line.block_num last_top last_block_num = true →
      (add_paragraph_to_document b index last_top last_block_num).lineSpacing
        = some 1.15) := by
  unfold add_paragraph_to_document
  rw [hb]
  exact ⟨rfl, fun _ => rfl⟩

theorem C7_body_fixed_size_witness :
    (add_paragraph_to_document
        { line := { text := "hello", left := 0, top := 30, height := 12,
                    confidence := 95, block_num := 1 },
          estimated_font_size := 9, style := Style.body } 1 10 1).fontSize = 11 ∧
    (add_paragraph_to_document
        { line := { text := "hello", left := 0, top := 30, height := 12,
                    confidence := 95, block_num := 1 },
          estimated_font_size := 9, style := Style.body } 1 10 1).lineSpacing
      = some 1.15 := by
  refine ⟨(C7_body_fixed_size _ 1 10 1 rfl).1, (C7_body_fixed_size _ 1 10 1 rfl).2 (by decide)⟩

/-- Claim C8: the role-specific spacing floors on top of the gap-derived
`spacing_before`: HEADER sets no `space_before` and a fixed trailing gap of
6; HEADING1 uses the raw value as-is; HEADING2 floors it at 12; HEADING3 at
10; BODY floors it at 8 when starting a new paragraph other than the
document's first, and uses 0 when continuing the previous paragraph. -/
theorem C8_spacing_floors (b : StyledLine) (index : Nat)
    (last_top last_block_num : Int) :
    (b.style = Style.header →
      (add_paragraph_to_document b index last_top last_block_num).spaceBefore = none ∧
      (add_paragraph_to_document b index last_top last_block_num).spaceAfter = some 6) ∧
    (b.style = Style.heading1 →
      (add_paragraph_to_document b index last_top last_block_num).spaceBefore
        = some (spacing_before b.line.top last_top)) ∧
    (b.style = Style.heading2 →
      (add_paragraph_to_document b index last_top last_block_num).spaceBefore
        = some (max 12 (spacing_before b.line.top last_top))) ∧
    (b.style = Style.heading3 →
      (add_paragraph_to_document b index last_top last_block_num).spaceBefore
        = some (max 10 (spacing_before b.line.top last_top))) ∧
    (b.style = Style.body →
      (is_new_paragraph b.line.top b.line.block_num last_top last_block_num = true →
        0 < index →
        (add_paragraph_to_document b index last_top last_block_num).spaceBefore
          = some (max 8 (spacing_before b.line.top last_top))) ∧
      (is_continuation b.line.top b.line.block_num last_top last_block_num = true →
        (add_paragraph_to_document b index last_top last_block_num).spaceBefore
          = some 0)) := by
  refine ⟨?_, ?_, ?_, ?_, ?_⟩ <;> intro hb <;> unfold add_paragraph_to_document <;>
    rw [hb] <;> try first | exact ⟨rfl, rfl⟩ | rfl
  constructor
  · intro hnew hidx
    simp [hnew, hidx]
  · intro hcont
    unfold is_continuation at hcont
    simp only [Bool.not_eq_eq_eq_not, Bool.not_true] at hcont
    simp [hcont]

theorem C8_spacing_floors_witness :
    (add_paragraph_to_document
        { line := { text := "Results", left := 0, top := 100, height := 20,
                    confidence := 95, block_num := 1 },
          estimated_font_size := 16, style := Style.heading2 } 2 50 1).spaceBefore
      = some (max 12 (spacing_before 100 50)) ∧
    (add_paragraph_to_document
        { line := { text := "body text", left := 0, top := 100, height := 12,
                    confidence := 95, block_num := 2 },
          estimated_font_size := 9, style := Style.body } 1 50 1).spaceBefore
      = some (max 8 (spacing_before 100 50)) ∧
    (add_paragraph_to_document
        { line := { text := "more body", left := 0, top := 100, height := 12,
                    confidence := 95, block_num := 1 },
          estimated_font_size := 9, style := Style.body } 1 90 1).spaceBefore
      = some 0 := by
  refine ⟨(C8_spacing_floors _ 2 50 1).2.2.1 rfl, ?_, ?_⟩
  · exact ((C8_spacing_floors _ 1 50 1).2.2.2.2 rfl).1 (by decide) (by decide)
  · exact ((C8_spacing_floors _ 1 90 1).2.2.2.2 rfl).2 (by decide)

/-- Claim C9: the font-size estimate is monotone in the height, and never
falls below the floor of 8. -/
theorem C9_estimate_monotone :
    (∀ h1 h2 : Nat, h1 < h2 → estimate_font_size h1 ≤ estimate_font_size h2) ∧
    (∀ h : Nat, 8 ≤ estimate_font_size h) := by
  constructor
  · intro h1 h2 hlt
    unfold estimate_font_size
    exact max_le_max le_rfl (Nat.div_le_div_right (by omega))
  · intro h
    exact le_max_left 8 _

theorem C9_estimate_monotone_witness :
    estimate_font_size 10 ≤ estimate_font_size 20 ∧ 8 ≤ estimate_font_size 3 :=
  ⟨C9_estimate_monotone.1 10 20 (by decide), C9_estimate_monotone.2 3⟩

/-- Claim C10 (the code at the failing input): a single surviving token
with confidence 90 yields a line whose confidence is 0, because the
accumulator-seeding branch of `_append_to_current_line` copies the token's
text and geometry but not its confidence — so the first line of every
document keeps the empty accumulator's confidence 0 rather than its first
token's, contradicting the claimed invariant. -/
theorem C10_first_line_confidence_bug :
    assembleLines
        [{ text := "INTRODUCTION", left := 3, top := 0, height := 18,
           conf := 90, block_num := 1 }]
      = [{ text := "INTRODUCTION", left := 3, top := 0, height := 18,
           confidence := 0, block_num := 1 }] ∧
    (0 : Int) ≠ 90 := by
  exact ⟨by decide, by decide⟩

theorem C5_token_conservation_witness :
    (["one", "two"] : List String) ≠ [] ∧
    assembleLines
      [{ text := "noise", left := 0, top := 0, height := 10, conf := 10, block_num := 1 }] = [] := by
  constructor
  · exact (C5_token_conservation
      [{ text := "one", left := 0, top := 0, height := 10, conf := 90, block_num := 1 },
       { text := "two", left := 20, top := 0, height := 10, conf := 90, block_num := 1 }]).2.2.1
      ["one", "two"] (by decide)
  · exact (C5_token_conservation
      [{ text := "noise", left := 0, top := 0, height := 10, conf := 10, block_num := 1 }]).2.2.2.2
      (by decide)

end Screenshot
